import Mathlib

/-!
Shallow embedding of the rag-bot backend (directory rag-backend/app) and
proofs about its core logic: the confidence-gated query router
(services/query_service.py), the thread/quota chat service backed by a
key-value store (services/chat_service.py), the pagination handlers
(handlers/chat_handler.py) and the query/chat endpoints (api/v1/query.py,
api/v1/chat.py).

Modelling conventions:
- The key-value store (a Redis database) is a function from keys to optional
  entries; an entry carries the stored payload together with the
  time-to-live that the last SETEX installed.  A GET command reads and does
  not modify the database, a SETEX replaces the entry at one key and renews
  its time-to-live.
- Stored payloads are modelled post-parse: a payload is either unparseable
  (json.loads raises) or a parsed record with a thread list and an optional
  requests_available field (absent on legacy records).
- Wall-clock readings (datetime.utcnow) and generated uuids are inputs of
  the operations that consume them; timestamps are naturals, consistent
  with the lexicographic order of the ISO-8601 strings the code stores.
- Relevance scores of the similarity-search provider are modelled as exact
  rationals.
- The similarity-search provider and the generative provider are oracles:
  their responses are inputs of query_ragbot.
- Python str.strip is modelled character-exactly as pyStrip below
  (whitespace at both ends removed).
-/

namespace RagBot

/-! ### Python string strip -/

/-- Left strip: drop leading whitespace, as Python lstrip does. -/
def lstripL (l : List Char) : List Char := l.dropWhile Char.isWhitespace

/-- Right strip on a character list: drop trailing whitespace. -/
def rstripL : List Char → List Char
  | [] => []
  | a :: t =>
    let r := rstripL t
    if r = [] then (if a.isWhitespace then [] else [a]) else a :: r

/-- Model of Python str.strip: whitespace removed from both ends. -/
def pyStrip (s : String) : String := String.mk (rstripL (lstripL s.data))

theorem lstripL_head_false {a : Char} {t : List Char}
    (h : a.isWhitespace = false) : lstripL (a :: t) = a :: t := by
  simp [lstripL, List.dropWhile, h]

theorem lstripL_shape (l : List Char) :
    lstripL l = [] ∨ ∃ a t, lstripL l = a :: t ∧ a.isWhitespace = false := by
  induction l with
  | nil => left; rfl
  | cons a t ih =>
    by_cases h : a.isWhitespace
    · simpa [lstripL, List.dropWhile, h] using ih
    · right
      exact ⟨a, t, by simp [lstripL, List.dropWhile, h], by simp [h]⟩

theorem rstripL_shape (a : Char) (t : List Char) :
    rstripL (a :: t) = [] ∨ ∃ t2, rstripL (a :: t) = a :: t2 := by
  by_cases hr : rstripL t = []
  · by_cases ha : a.isWhitespace
    · left; simp [rstripL, hr, ha]
    · right; exact ⟨[], by simp [rstripL, hr, ha]⟩
  · right; exact ⟨rstripL t, by simp [rstripL, hr]⟩

theorem rstripL_idem (l : List Char) : rstripL (rstripL l) = rstripL l := by
  induction l with
  | nil => rfl
  | cons a t ih =>
    by_cases hr : rstripL t = []
    · by_cases ha : a.isWhitespace
      · simp [rstripL, hr, ha]
      · simp [rstripL, hr, ha]
    · have hshape := rstripL_shape a t
      have hcons : rstripL (a :: t) = a :: rstripL t := by
        simp [rstripL, hr]
      rw [hcons]
      by_cases hrr : rstripL (rstripL t) = []
      · rw [ih] at hrr; exact absurd hrr hr
      · simp [rstripL, ih, hr]

theorem lstripL_rstripL_lstripL (l : List Char) :
    lstripL (rstripL (lstripL l)) = rstripL (lstripL l) := by
  rcases lstripL_shape l with h | ⟨a, t, h, ha⟩
  · rw [h]; rfl
  · rw [h]
    rcases rstripL_shape a t with h2 | ⟨t2, h2⟩
    · rw [h2]; rfl
    · rw [h2]; exact lstripL_head_false ha

theorem pyStrip_idem (s : String) : pyStrip (pyStrip s) = pyStrip s := by
  show String.mk (rstripL (lstripL (rstripL (lstripL s.data)))) =
    String.mk (rstripL (lstripL s.data))
  rw [lstripL_rstripL_lstripL, rstripL_idem]

theorem pyStrip_ne_empty_of_strip_ne {s : String} (h : pyStrip s ≠ "") :
    pyStrip (pyStrip s) ≠ "" := by
  rw [pyStrip_idem]; exact h

/-! ### Data model (services/chat_service.py) -/

/-- Message dict appended by ChatService.add_message_to_thread. -/
structure Message where
  id : String
  role : String
  content : String
  timestamp : Nat
  deriving Repr, DecidableEq

/-- Thread dict created by ChatService.create_thread. -/
structure Thread where
  id : String
  title : String
  created_at : Nat
  updated_at : Nat
  messages : List Message
  deriving Repr, DecidableEq

/-- Stored payload under a user key, post-parse: corrupt stands for a
payload on which json.loads raises (or an empty string, which the code
treats the same way), valid carries the parsed record; requests_available
is optional because legacy records lack the field. -/
inductive Payload where
  | corrupt : Payload
  | valid (threads : List Thread) (requests_available : Option Int) : Payload
  deriving Repr, DecidableEq

/-- One Redis entry: the payload plus the time-to-live installed by the
last SETEX that wrote it. -/
structure RedisEntry where
  payload : Payload
  ttl : Nat
  deriving Repr, DecidableEq

/-- The Redis database: a map from keys to entries. -/
def Store : Type := String → Option RedisEntry

/-- In-memory view of a user record after ChatService._get_user_data has
applied its defaults: requests_available is always present. -/
structure UserData where
  threads : List Thread
  requests_available : Int
  deriving Repr, DecidableEq

/-- Configuration values the chat service reads from app/core/config.py:
MAX_MESSAGES_PER_USER (default 30) and REDIS_CHAT_TTL (default 2592000). -/
structure Config where
  maxMsgs : Int
  chatTtl : Nat
  deriving Repr, DecidableEq

/-! ### ChatService (services/chat_service.py)

Every operation takes the store and returns its result together with the
store after the operation, mirroring the Redis commands the Python method
issues (GET reads, SETEX writes). -/

/-- ChatService._get_user_key. -/
def user_key (user_email : String) : String := "chat:user:" ++ user_email

/-- ChatService._get_user_data: GET the user key; absent or unparseable
payloads yield the default empty record with full quota, and a missing
requests_available field on a parsed record is defaulted to the maximum. -/
def get_user_data (cfg : Config) (s : Store) (user_email : String) :
    UserData × Store :=
  match s (user_key user_email) with
  | none => (⟨[], cfg.maxMsgs⟩, s)
  | some e =>
    match e.payload with
    | .corrupt => (⟨[], cfg.maxMsgs⟩, s)
    | .valid threads ra => (⟨threads, ra.getD cfg.maxMsgs⟩, s)

/-- ChatService._save_user_data: SETEX of the serialized record under the
user key, with the configured time-to-live; the serialized record always
carries the requests_available field. -/
def save_user_data (cfg : Config) (s : Store) (user_email : String)
    (d : UserData) : Store :=
  fun k =>
    if k = user_key user_email then
      some ⟨.valid d.threads (some d.requests_available), cfg.chatTtl⟩
    else s k

/-- ChatService.create_thread; the generated uuid and the current time are
inputs. -/
def create_thread (cfg : Config) (s : Store) (user_email title : String)
    (new_id : String) (now : Nat) : String × Store :=
  let (d, s1) := get_user_data cfg s user_email
  let new_thread : Thread := ⟨new_id, title, now, now, []⟩
  (new_id, save_user_data cfg s1 user_email
    ⟨d.threads ++ [new_thread], d.requests_available⟩)

/-- First thread with the given id, as the linear scans in
ChatService.get_thread and add_message_to_thread find it. -/
def find_thread (thread_id : String) : List Thread → Option Thread
  | [] => none
  | th :: rest => if th.id = thread_id then some th else find_thread thread_id rest

/-- ChatService.get_thread: linear scan of the user threads; none doubles
as the ownership check. -/
def get_thread (cfg : Config) (s : Store) (thread_id user_email : String) :
    Option Thread × Store :=
  let (d, s1) := get_user_data cfg s user_email
  (find_thread thread_id d.threads, s1)

/-- Loop body of ChatService.add_message_to_thread: append the message to
the first thread with the given id and bump its updated_at; none when no
thread matches. -/
def add_msg (thread_id : String) (m : Message) (now : Nat) :
    List Thread → Option (List Thread)
  | [] => none
  | th :: rest =>
    if th.id = thread_id then
      some ({ th with messages := th.messages ++ [m], updated_at := now } :: rest)
    else
      (add_msg thread_id m now rest).map (th :: ·)

/-- ChatService.add_message_to_thread; the generated message uuid and the
current time are inputs.  Raises ValueError (modelled as the error case)
when the thread does not exist for that user, without having written. -/
def add_message_to_thread (cfg : Config) (s : Store)
    (thread_id user_email content role : String) (message_id : String)
    (now : Nat) : Except Unit (String × Store) :=
  let (d, s1) := get_user_data cfg s user_email
  match add_msg thread_id ⟨message_id, role, content, now⟩ now d.threads with
  | none => .error ()
  | some threads2 =>
    .ok (message_id, save_user_data cfg s1 user_email
      ⟨threads2, d.requests_available⟩)

/-- ChatService.get_user_threads. -/
def get_user_threads (cfg : Config) (s : Store) (user_email : String) :
    List Thread × Store :=
  let (d, s1) := get_user_data cfg s user_email
  (d.threads, s1)

/-- ChatService.get_user_requests_available. -/
def get_user_requests_available (cfg : Config) (s : Store)
    (user_email : String) : Int × Store :=
  let (d, s1) := get_user_data cfg s user_email
  (d.requests_available, s1)

/-- ChatService.can_user_send_message. -/
def can_user_send_message (cfg : Config) (s : Store) (user_email : String) :
    Bool × Store :=
  let (ra, s1) := get_user_requests_available cfg s user_email
  (decide (ra > 0), s1)

/-- ChatService.decrement_user_requests: decrement only when the current
counter is positive, persisting the full record in that case; return the
record value after the conditional decrement. -/
def decrement_user_requests (cfg : Config) (s : Store) (user_email : String) :
    Int × Store :=
  let (d, s1) := get_user_data cfg s user_email
  let current := d.requests_available
  if current > 0 then
    (current - 1, save_user_data cfg s1 user_email ⟨d.threads, current - 1⟩)
  else
    (current, s1)

/-- ChatService.delete_thread: filter the thread out; false (with no
write) when the length did not change, i.e. the thread was not present. -/
def delete_thread (cfg : Config) (s : Store) (thread_id user_email : String) :
    Bool × Store :=
  let (d, s1) := get_user_data cfg s user_email
  let remaining := d.threads.filter (fun th => th.id ≠ thread_id)
  if remaining.length = d.threads.length then
    (false, s1)
  else
    (true, save_user_data cfg s1 user_email ⟨remaining, d.requests_available⟩)

/-! ### ChatHandler (handlers/chat_handler.py) -/

/-- Summary objects built by ChatHandler.get_user_threads_paginated. -/
structure ChatThreadSummary where
  id : String
  title : String
  created_at : Nat
  updated_at : Nat
  message_count : Nat
  deriving Repr, DecidableEq

/-- ThreadListResponse model (models/chat.py), as filled by the handler. -/
structure ThreadListResponse where
  threads : List ChatThreadSummary
  total_count : Nat
  page : Nat
  page_size : Nat
  total_pages : Nat
  has_next : Bool
  has_previous : Bool
  deriving Repr, DecidableEq

/-- MessageListResponse model (models/chat.py), as filled by the handler. -/
structure MessageListResponse where
  messages : List Message
  thread_id : String
  total_count : Nat
  page : Nat
  page_size : Nat
  total_pages : Nat
  has_next : Bool
  has_previous : Bool
  deriving Repr, DecidableEq

/-- Result of the pagination computation both handler methods share
verbatim (lines 60-67 and 182-189 of handlers/chat_handler.py). -/
structure Paginated (α : Type) where
  items : List α
  total_count : Nat
  total_pages : Nat
  has_next : Bool
  has_previous : Bool

/-- The pagination computation of the two paginated handler methods:
total_pages by the rounding-up integer division, the page slice
[(page-1)*page_size, page*page_size) of the already sorted collection,
has_next and has_previous flags. -/
def paginate {α : Type} (sorted : List α) (page page_size : Nat) :
    Paginated α :=
  let total_count := sorted.length
  let total_pages := (total_count + page_size - 1) / page_size
  let start_idx := (page - 1) * page_size
  { items := (sorted.drop start_idx).take page_size
    total_count := total_count
    total_pages := total_pages
    has_next := decide (page < total_pages)
    has_previous := decide (page > 1) }

/-- Comparison chain of ChatHandler.get_user_threads_paginated: sort key
by sort_by, defaulting to updated_at for unknown fields; titles compare
case-insensitively. -/
def thread_le (sort_by : String) (a b : Thread) : Bool :=
  if sort_by = "created_at" then decide (a.created_at ≤ b.created_at)
  else if sort_by = "updated_at" then decide (a.updated_at ≤ b.updated_at)
  else if sort_by = "title" then decide (a.title.toLower ≤ b.title.toLower)
  else decide (a.updated_at ≤ b.updated_at)

/-- Stable sort of the thread list with the selected key; reverse=True in
Python flips the comparison while keeping the sort stable. -/
def sort_threads (sort_by sort_order : String) (l : List Thread) :
    List Thread :=
  if sort_order.toLower = "desc" then
    l.mergeSort (fun a b => thread_le sort_by b a)
  else
    l.mergeSort (thread_le sort_by)

/-- Stable sort of the message list by timestamp, ascending or
descending, as ChatHandler.get_thread_messages_paginated sorts. -/
def sort_messages (sort_order : String) (l : List Message) : List Message :=
  if sort_order.toLower = "desc" then
    l.mergeSort (fun a b => decide (b.timestamp ≤ a.timestamp))
  else
    l.mergeSort (fun a b => decide (a.timestamp ≤ b.timestamp))

/-- ChatHandler.get_user_threads_paginated: fetch, sort, paginate, and
summarize the page of threads. -/
def get_user_threads_paginated (cfg : Config) (s : Store)
    (user_email : String) (page page_size : Nat)
    (sort_by sort_order : String) : ThreadListResponse × Store :=
  let (all_threads, s1) := get_user_threads cfg s user_email
  let sorted := sort_threads sort_by sort_order all_threads
  let p := paginate sorted page page_size
  ({ threads := p.items.map (fun th =>
        ⟨th.id, th.title, th.created_at, th.updated_at, th.messages.length⟩)
     total_count := p.total_count
     page := page
     page_size := page_size
     total_pages := p.total_pages
     has_next := p.has_next
     has_previous := p.has_previous }, s1)

/-- ChatHandler.get_thread_messages_paginated: fetch the thread (ValueError
when absent, modelled as the error case), sort its messages by timestamp,
paginate. -/
def get_thread_messages_paginated (cfg : Config) (s : Store)
    (thread_id user_email : String) (page page_size : Nat)
    (sort_order : String) : Except Unit MessageListResponse × Store :=
  let (th, s1) := get_thread cfg s thread_id user_email
  match th with
  | none => (.error (), s1)
  | some thread =>
    let sorted := sort_messages sort_order thread.messages
    let p := paginate sorted page page_size
    (.ok { messages := p.items
           thread_id := thread_id
           total_count := p.total_count
           page := page
           page_size := page_size
           total_pages := p.total_pages
           has_next := p.has_next
           has_previous := p.has_previous }, s1)

/-! ### Chat API endpoints (api/v1/chat.py) -/

/-- Error conditions the endpoints report as HTTP statuses. -/
inductive ApiError where
  | bad_request : ApiError
  | rate_limit : ApiError
  | not_found : ApiError
  | server_error : ApiError
  deriving Repr, DecidableEq

/-- The delete_thread attribute of the ChatHandler instance the delete
endpoint calls: ChatHandler (handlers/chat_handler.py) defines only
get_user_threads_paginated, get_thread_by_id and
get_thread_messages_paginated, so the attribute lookup
chat_handler.delete_thread finds nothing. -/
def chat_handler_delete_thread :
    Option (Store → String → String → Except Unit (Bool × Store)) := none

/-- DELETE /threads/thread_id (api/v1/chat.py lines 121-145): call
chat_handler.delete_thread; a ValueError would map to not_found and any
other exception to a 500 server error.  Because the attribute does not
exist, the call raises AttributeError, which the generic handler turns
into the 500 response on every input. -/
def delete_thread_endpoint (s : Store) (thread_id user_email : String) :
    Except ApiError Bool × Store :=
  match chat_handler_delete_thread with
  | none => (.error .server_error, s)
  | some f =>
    match f s thread_id user_email with
    | .error _ => (.error .not_found, s)
    | .ok (r, s2) => (.ok r, s2)

/-! ### Retrieval-confidence router (services/query_service.py) -/

/-- Chat message sent to the generative provider. -/
structure ChatMsg where
  role : String
  content : String
  deriving Repr, DecidableEq

/-- Source node returned by the similarity-search provider; score is none
when the node has no score attribute or the score is null.  Text and
metadata only feed logging and are omitted. -/
structure SourceNode where
  score : Option ℚ
  deriving Repr, DecidableEq

/-- Response of the similarity-search provider: the synthesized answer
text (response attribute, possibly absent) and the source nodes. -/
structure RagResponse where
  response : Option String
  source_nodes : List SourceNode
  deriving Repr, DecidableEq

/-- Observable outcome of query_ragbot: the returned answer, the computed
confidence, whether the generative-provider fallback was invoked and, if
so, the message list sent to it. -/
structure QueryResult where
  answer : String
  confidence : ℚ
  llm_called : Bool
  llm_messages : List ChatMsg
  deriving Repr, DecidableEq

/-- Confidence computation of query_ragbot (lines 42-47): the arithmetic
mean of the scores of the source nodes that carry one, and 0 when no node
carries a score (which subsumes the no-nodes case). -/
def compute_confidence (nodes : List SourceNode) : ℚ :=
  let scores := nodes.filterMap (fun n => n.score)
  if scores.isEmpty then 0 else scores.sum / scores.length

/-- Truthiness chain guarding the high-confidence return (line 63):
text_response and text_response.strip() and text_response != the
Empty Response sentinel. -/
def synth_ok (t : Option String) : Bool :=
  match t with
  | none => false
  | some t => t ≠ "" && pyStrip t ≠ "" && t ≠ "Empty Response"

/-- Fixed apology substituted when the generative provider returns blank
text (line 83). -/
def apology_msg : String :=
  "I apologize, but I'm unable to generate a response at this time."

/-- query_ragbot (services/query_service.py): empty-question early return,
confidence computation over the provider response, confidence-gated
routing between the synthesized answer and the generative-provider
fallback, blank-fallback apology substitution, and a final strip.  The
provider responses are oracle inputs; the best-effort insert of the
fallback question/answer pair into the index acts only on the opaque
provider and is not part of the modelled state. -/
def query_ragbot (threshold : ℚ) (rag : RagResponse)
    (llm_content : Option String) (query : String) : QueryResult :=
  if pyStrip query = "" then
    ⟨"Please provide a valid question.", 0, false, []⟩
  else
    let confidence := compute_confidence rag.source_nodes
    if decide (confidence ≥ threshold) && synth_ok rag.response then
      ⟨pyStrip (rag.response.getD ""), confidence, false, []⟩
    else
      let messages := [ChatMsg.mk "user" query]
      let t := llm_content.getD ""
      let t2 := if t = "" ∨ pyStrip t = "" then apology_msg else t
      ⟨pyStrip t2, confidence, true, messages⟩

/-! ### Query endpoint (api/v1/query.py) -/

/-- Thread title derived from the question (line 55): the first 50
characters plus an ellipsis when the question is longer than 50. -/
def title_of (question : String) : String :=
  if question.length > 50 then String.mk (question.data.take 50) ++ "..." else question

/-- Apology substituted by the endpoint when the query service returns an
empty answer (line 80). -/
def endpoint_apology : String :=
  "I apologize, but I couldn't generate a response for your question."

/-- Tail of query_endpoint after thread resolution (lines 66-95): append
the user message (a failure here is a 500), obtain the answer from the
query service (an exception there propagates as a 500), substitute the
endpoint apology for an empty answer, best-effort append the assistant
message (a failure is swallowed), decrement the quota, and return the
answer with the thread id.  rag_result is the outcome of the
query_ragbot call: ok with its returned answer, or error when it raised. -/
def query_endpoint_rest (cfg : Config) (s1 : Store)
    (user_email question thread_id : String) (u_mid a_mid : String)
    (t_user t_asst : Nat) (rag_result : Except Unit String) :
    Except ApiError (String × String) × Store :=
  match add_message_to_thread cfg s1 thread_id user_email question "user" u_mid t_user with
  | .error _ => (.error .server_error, s1)
  | .ok (_, s2) =>
    match rag_result with
    | .error _ => (.error .server_error, s2)
    | .ok answer0 =>
      let answer := if answer0 = "" then endpoint_apology else answer0
      let s3 :=
        match add_message_to_thread cfg s2 thread_id user_email answer "assistant" a_mid t_asst with
        | .error _ => s2
        | .ok (_, s3) => s3
      (.ok (answer, thread_id), (decrement_user_requests cfg s3 user_email).2)

/-- query_endpoint (api/v1/query.py): validate the question, check the
quota, resolve or create the thread, then run the append/answer/append/
decrement tail.  Generated uuids and clock readings are inputs. -/
def query_endpoint (cfg : Config) (s : Store) (user_email question : String)
    (thread_id : Option String) (new_tid u_mid a_mid : String)
    (t_new t_user t_asst : Nat) (rag_result : Except Unit String) :
    Except ApiError (String × String) × Store :=
  if pyStrip question = "" then (.error .bad_request, s)
  else if question.length > 1000 then (.error .bad_request, s)
  else if !(can_user_send_message cfg s user_email).1 then
    (.error .rate_limit, (can_user_send_message cfg s user_email).2)
  else
    match thread_id with
    | none =>
      query_endpoint_rest cfg
        (create_thread cfg (can_user_send_message cfg s user_email).2 user_email
          (title_of question) new_tid t_new).2
        user_email question
        (create_thread cfg (can_user_send_message cfg s user_email).2 user_email
          (title_of question) new_tid t_new).1
        u_mid a_mid t_user t_asst rag_result
    | some tid =>
      match (get_thread cfg (can_user_send_message cfg s user_email).2 tid user_email).1 with
      | none => (.error .not_found,
          (get_thread cfg (can_user_send_message cfg s user_email).2 tid user_email).2)
      | some _ =>
        query_endpoint_rest cfg
          (get_thread cfg (can_user_send_message cfg s user_email).2 tid user_email).2
          user_email question tid u_mid a_mid t_user t_asst rag_result

/-- The requests_available value a read of the user record reports. -/
def user_counter (cfg : Config) (s : Store) (user_email : String) : Int :=
  (get_user_data cfg s user_email).1.requests_available

/-- k successive successful queries by one user, each with a valid
question, no thread id, and an answering provider; used to state the
quota-exhaustion property. -/
def run_queries (cfg : Config) (s : Store) (user_email : String) :
    Nat → Store
  | 0 => s
  | k + 1 =>
    (query_endpoint cfg (run_queries cfg s user_email k) user_email "hello"
      none "tid" "mu" "ma" 0 1 2 (.ok "ok")).2

/-! ### Store lemmas -/

theorem get_user_data_store (cfg : Config) (s : Store) (e : String) :
    (get_user_data cfg s e).2 = s := by
  unfold get_user_data
  cases h : s (user_key e) with
  | none => rfl
  | some en => rcases en with ⟨p, t⟩; cases p <;> rfl

theorem get_user_data_eq (cfg : Config) (s : Store) (e : String) :
    get_user_data cfg s e = ((get_user_data cfg s e).1, s) := by
  conv_lhs => rw [← Prod.mk.eta (p := get_user_data cfg s e)]
  rw [get_user_data_store]

theorem get_user_data_save (cfg : Config) (s : Store) (e : String)
    (d : UserData) :
    get_user_data cfg (save_user_data cfg s e d) e =
      (d, save_user_data cfg s e d) := by
  unfold get_user_data save_user_data
  simp

theorem user_counter_save (cfg : Config) (s : Store) (e : String)
    (d : UserData) :
    user_counter cfg (save_user_data cfg s e d) e = d.requests_available := by
  unfold user_counter
  rw [get_user_data_save]

/-! ### Service operations, unfolded through the user-data read -/

theorem create_thread_eq (cfg : Config) (s : Store) (e title tid : String)
    (now : Nat) :
    create_thread cfg s e title tid now =
      (tid, save_user_data cfg s e
        ⟨(get_user_data cfg s e).1.threads ++ [⟨tid, title, now, now, []⟩],
         (get_user_data cfg s e).1.requests_available⟩) := by
  unfold create_thread
  conv_lhs => rw [get_user_data_eq]

theorem get_thread_eq (cfg : Config) (s : Store) (tid e : String) :
    get_thread cfg s tid e =
      (find_thread tid (get_user_data cfg s e).1.threads, s) := by
  unfold get_thread
  conv_lhs => rw [get_user_data_eq]

theorem add_message_eq (cfg : Config) (s : Store)
    (tid e content role mid : String) (now : Nat) :
    add_message_to_thread cfg s tid e content role mid now =
      (match add_msg tid ⟨mid, role, content, now⟩ now
          (get_user_data cfg s e).1.threads with
       | none => .error ()
       | some ths2 => .ok (mid, save_user_data cfg s e
           ⟨ths2, (get_user_data cfg s e).1.requests_available⟩)) := by
  unfold add_message_to_thread
  conv_lhs => rw [get_user_data_eq]

theorem get_user_requests_available_eq (cfg : Config) (s : Store)
    (e : String) :
    get_user_requests_available cfg s e = (user_counter cfg s e, s) := by
  unfold get_user_requests_available user_counter
  conv_lhs => rw [get_user_data_eq]

theorem can_user_send_message_eq (cfg : Config) (s : Store) (e : String) :
    can_user_send_message cfg s e = (decide (user_counter cfg s e > 0), s) := by
  unfold can_user_send_message
  rw [get_user_requests_available_eq]

theorem decrement_eq (cfg : Config) (s : Store) (e : String) :
    decrement_user_requests cfg s e =
      (if user_counter cfg s e > 0 then
        (user_counter cfg s e - 1, save_user_data cfg s e
          ⟨(get_user_data cfg s e).1.threads, user_counter cfg s e - 1⟩)
       else (user_counter cfg s e, s)) := by
  unfold decrement_user_requests user_counter
  conv_lhs => rw [get_user_data_eq]

theorem delete_thread_eq (cfg : Config) (s : Store) (tid e : String) :
    delete_thread cfg s tid e =
      (let d := (get_user_data cfg s e).1
       let remaining := d.threads.filter (fun th => th.id ≠ tid)
       if remaining.length = d.threads.length then (false, s)
       else (true, save_user_data cfg s e ⟨remaining, d.requests_available⟩)) := by
  unfold delete_thread
  conv_lhs => rw [get_user_data_eq]

/-! ### Thread-list lemmas -/

theorem find_thread_append (tid : String) (l1 l2 : List Thread) :
    find_thread tid (l1 ++ l2) =
      (match find_thread tid l1 with
       | some th => some th
       | none => find_thread tid l2) := by
  induction l1 with
  | nil => rfl
  | cons th rest ih =>
    by_cases h : th.id = tid
    · simp [find_thread, h]
    · simp [find_thread, h, ih]

theorem add_msg_of_find_some (tid : String) (m : Message) (now : Nat) :
    ∀ (l : List Thread) (th : Thread), find_thread tid l = some th →
      ∃ l2, add_msg tid m now l = some l2 ∧
        find_thread tid l2 =
          some ⟨th.id, th.title, th.created_at, now, th.messages ++ [m]⟩ := by
  intro l
  induction l with
  | nil => intro th h; cases h
  | cons th0 rest ih =>
    intro th h
    by_cases h0 : th0.id = tid
    · have hth : th0 = th := by
        have := h
        unfold find_thread at this
        rw [if_pos h0] at this
        exact Option.some.injEq _ _ ▸ this
      subst hth
      refine ⟨{ th0 with messages := th0.messages ++ [m], updated_at := now } :: rest,
        ?_, ?_⟩
      · unfold add_msg; rw [if_pos h0]
      · unfold find_thread
        rw [if_pos (show th0.id = tid from h0)]
    · have hrest : find_thread tid rest = some th := by
        have := h
        unfold find_thread at this
        rwa [if_neg h0] at this
      obtain ⟨l2, hl2, hf⟩ := ih th hrest
      refine ⟨th0 :: l2, ?_, ?_⟩
      · unfold add_msg; rw [if_neg h0, hl2]; rfl
      · unfold find_thread; rw [if_neg h0]; exact hf

theorem add_message_counter (cfg : Config) (s : Store)
    (tid e content role mid : String) (now : Nat) (mid2 : String) (s2 : Store)
    (h : add_message_to_thread cfg s tid e content role mid now = .ok (mid2, s2)) :
    user_counter cfg s2 e = user_counter cfg s e := by
  rw [add_message_eq] at h
  cases hm : add_msg tid ⟨mid, role, content, now⟩ now
      (get_user_data cfg s e).1.threads with
  | none => rw [hm] at h; cases h
  | some ths2 =>
    rw [hm] at h
    have hs2 : s2 = save_user_data cfg s e
        ⟨ths2, (get_user_data cfg s e).1.requests_available⟩ := by
      cases h; rfl
    rw [hs2, user_counter_save]
    rfl

/-! ### The endpoint tail on an existing thread -/

theorem query_endpoint_rest_spec (cfg : Config) (s1 : Store)
    (e q tid u a : String) (t1 t2 : Nat) (ans : String) (th : Thread)
    (hth : find_thread tid (get_user_data cfg s1 e).1.threads = some th) :
    (query_endpoint_rest cfg s1 e q tid u a t1 t2 (.ok ans)).1 =
      .ok ((if ans = "" then endpoint_apology else ans), tid) ∧
    find_thread tid
        (get_user_data cfg (query_endpoint_rest cfg s1 e q tid u a t1 t2 (.ok ans)).2 e).1.threads =
      some ⟨th.id, th.title, th.created_at, t2,
        th.messages ++ [⟨u, "user", q, t1⟩,
          ⟨a, "assistant", (if ans = "" then endpoint_apology else ans), t2⟩]⟩ ∧
    user_counter cfg (query_endpoint_rest cfg s1 e q tid u a t1 t2 (.ok ans)).2 e =
      (if user_counter cfg s1 e > 0 then user_counter cfg s1 e - 1
       else user_counter cfg s1 e) := by
  obtain ⟨l2, hl2, hf2⟩ :=
    add_msg_of_find_some tid ⟨u, "user", q, t1⟩ t1
      (get_user_data cfg s1 e).1.threads th hth
  obtain ⟨l3, hl3, hf3⟩ :=
    add_msg_of_find_some tid
      ⟨a, "assistant", (if ans = "" then endpoint_apology else ans), t2⟩ t2
      l2 _ hf2
  have hadd1 : add_message_to_thread cfg s1 tid e q "user" u t1 =
      .ok (u, save_user_data cfg s1 e
        ⟨l2, (get_user_data cfg s1 e).1.requests_available⟩) := by
    rw [add_message_eq, hl2]
  have hadd2 : add_message_to_thread cfg
      (save_user_data cfg s1 e ⟨l2, (get_user_data cfg s1 e).1.requests_available⟩)
      tid e (if ans = "" then endpoint_apology else ans) "assistant" a t2 =
      .ok (a, save_user_data cfg
        (save_user_data cfg s1 e ⟨l2, (get_user_data cfg s1 e).1.requests_available⟩)
        e ⟨l3, (get_user_data cfg s1 e).1.requests_available⟩) := by
    rw [add_message_eq]
    simp only [get_user_data_save]
    rw [hl3]
  have hfin : query_endpoint_rest cfg s1 e q tid u a t1 t2 (.ok ans) =
      ((.ok ((if ans = "" then endpoint_apology else ans), tid)),
        (decrement_user_requests cfg
          (save_user_data cfg
            (save_user_data cfg s1 e ⟨l2, (get_user_data cfg s1 e).1.requests_available⟩)
            e ⟨l3, (get_user_data cfg s1 e).1.requests_available⟩) e).2) := by
    unfold query_endpoint_rest
    rw [hadd1]
    dsimp only
    rw [hadd2]
  have hcnt3 : user_counter cfg
      (save_user_data cfg
        (save_user_data cfg s1 e ⟨l2, (get_user_data cfg s1 e).1.requests_available⟩)
        e ⟨l3, (get_user_data cfg s1 e).1.requests_available⟩) e =
      user_counter cfg s1 e := user_counter_save ..
  rw [hfin]
  refine ⟨rfl, ?_, ?_⟩
  · rw [decrement_eq, hcnt3]
    by_cases hpos : user_counter cfg s1 e > 0
    · rw [if_pos hpos]
      simp only [get_user_data_save]
      simpa using hf3
    · rw [if_neg hpos]
      simp only [get_user_data_save]
      simpa using hf3
  · rw [decrement_eq, hcnt3]
    by_cases hpos : user_counter cfg s1 e > 0
    · rw [if_pos hpos, if_pos hpos]
      simp only [user_counter_save]
    · rw [if_neg hpos, if_neg hpos, hcnt3]

/-! ### Endpoint path reductions -/

theorem query_endpoint_some_spec (cfg : Config) (s : Store)
    (e q tid ntid u a : String) (tn t1 t2 : Nat) (rr : Except Unit String)
    (hq : ¬ pyStrip q = "") (hlen : ¬ q.length > 1000)
    (hcan : user_counter cfg s e > 0)
    (hth : (find_thread tid (get_user_data cfg s e).1.threads).isSome = true) :
    query_endpoint cfg s e q (some tid) ntid u a tn t1 t2 rr =
      query_endpoint_rest cfg s e q tid u a t1 t2 rr := by
  unfold query_endpoint
  rw [if_neg hq, if_neg hlen, can_user_send_message_eq, decide_eq_true hcan]
  rw [if_neg (by simp)]
  dsimp only
  rw [get_thread_eq]
  dsimp only
  cases hf2 : find_thread tid (get_user_data cfg s e).1.threads with
  | none => rw [hf2] at hth; cases hth
  | some th => rfl

theorem query_endpoint_none_spec (cfg : Config) (s : Store)
    (e q ntid u a : String) (tn t1 t2 : Nat) (rr : Except Unit String)
    (hq : ¬ pyStrip q = "") (hlen : ¬ q.length > 1000)
    (hcan : user_counter cfg s e > 0) :
    query_endpoint cfg s e q none ntid u a tn t1 t2 rr =
      query_endpoint_rest cfg
        (save_user_data cfg s e
          ⟨(get_user_data cfg s e).1.threads ++ [⟨ntid, title_of q, tn, tn, []⟩],
           (get_user_data cfg s e).1.requests_available⟩)
        e q ntid u a t1 t2 rr := by
  unfold query_endpoint
  rw [if_neg hq, if_neg hlen, can_user_send_message_eq, decide_eq_true hcan]
  rw [if_neg (by simp)]
  dsimp only
  rw [create_thread_eq]

theorem find_thread_append_self (tid : String) (l : List Thread)
    (th : Thread) (h : th.id = tid) :
    (find_thread tid (l ++ [th])).isSome = true := by
  rw [find_thread_append]
  cases hf : find_thread tid l with
  | none => simp [find_thread, h]
  | some th0 => rfl

/-! ### Counter accounting through the endpoint -/

theorem query_endpoint_rest_counter (cfg : Config) (s1 : Store)
    (e q tid u a : String) (t1 t2 : Nat) (rr : Except Unit String)
    (hcan : user_counter cfg s1 e > 0) :
    (∀ r, (query_endpoint_rest cfg s1 e q tid u a t1 t2 rr).1 = .ok r →
      user_counter cfg (query_endpoint_rest cfg s1 e q tid u a t1 t2 rr).2 e =
        user_counter cfg s1 e - 1) ∧
    (∀ err, (query_endpoint_rest cfg s1 e q tid u a t1 t2 rr).1 = .error err →
      user_counter cfg (query_endpoint_rest cfg s1 e q tid u a t1 t2 rr).2 e =
        user_counter cfg s1 e) := by
  unfold query_endpoint_rest
  cases hadd : add_message_to_thread cfg s1 tid e q "user" u t1 with
  | error _ =>
    exact ⟨fun r hr => Except.noConfusion hr, fun err herr => rfl⟩
  | ok v =>
    rcases v with ⟨mid2, s2⟩
    have hc2 : user_counter cfg s2 e = user_counter cfg s1 e :=
      add_message_counter cfg s1 tid e q "user" u t1 mid2 s2 hadd
    cases rr with
    | error _ =>
      exact ⟨fun r hr => Except.noConfusion hr, fun err herr => hc2⟩
    | ok ans =>
      dsimp only
      have hc3 : ∀ s3,
          (match add_message_to_thread cfg s2 tid e
              (if ans = "" then endpoint_apology else ans) "assistant" a t2 with
           | .error _ => s2
           | .ok (_, s3) => s3) = s3 →
          user_counter cfg s3 e = user_counter cfg s1 e := by
        intro s3 h3
        cases hadd2 : add_message_to_thread cfg s2 tid e
            (if ans = "" then endpoint_apology else ans) "assistant" a t2 with
        | error _ =>
          rw [hadd2] at h3; dsimp only at h3; rw [← h3]; exact hc2
        | ok v2 =>
          rcases v2 with ⟨mid3, s3b⟩
          rw [hadd2] at h3; dsimp only at h3; rw [← h3]
          rw [add_message_counter cfg s2 tid e _ "assistant" a t2 mid3 s3b hadd2]
          exact hc2
      set s3 := (match add_message_to_thread cfg s2 tid e
          (if ans = "" then endpoint_apology else ans) "assistant" a t2 with
        | .error _ => s2
        | .ok (_, s3) => s3) with hs3
      have hcnt3 : user_counter cfg s3 e = user_counter cfg s1 e :=
        hc3 s3 hs3.symm
      rw [decrement_eq, hcnt3, if_pos hcan]
      refine ⟨fun r hr => ?_, fun err herr => Except.noConfusion herr⟩
      rw [user_counter_save]

theorem query_endpoint_counter (cfg : Config) (s : Store)
    (e q : String) (tidopt : Option String) (ntid u a : String)
    (tn t1 t2 : Nat) (rr : Except Unit String) :
    (∀ r, (query_endpoint cfg s e q tidopt ntid u a tn t1 t2 rr).1 = .ok r →
      user_counter cfg (query_endpoint cfg s e q tidopt ntid u a tn t1 t2 rr).2 e =
        user_counter cfg s e - 1) ∧
    (∀ err, (query_endpoint cfg s e q tidopt ntid u a tn t1 t2 rr).1 = .error err →
      user_counter cfg (query_endpoint cfg s e q tidopt ntid u a tn t1 t2 rr).2 e =
        user_counter cfg s e) := by
  by_cases hq : pyStrip q = ""
  · unfold query_endpoint
    rw [if_pos hq]
    exact ⟨fun r hr => Except.noConfusion hr, fun err herr => rfl⟩
  · by_cases hlen : q.length > 1000
    · unfold query_endpoint
      rw [if_neg hq, if_pos hlen]
      exact ⟨fun r hr => Except.noConfusion hr, fun err herr => rfl⟩
    · by_cases hcan : user_counter cfg s e > 0
      · cases tidopt with
        | none =>
          rw [query_endpoint_none_spec cfg s e q ntid u a tn t1 t2 rr hq hlen hcan]
          have hcs : user_counter cfg
              (save_user_data cfg s e
                ⟨(get_user_data cfg s e).1.threads ++ [⟨ntid, title_of q, tn, tn, []⟩],
                 (get_user_data cfg s e).1.requests_available⟩) e =
              user_counter cfg s e := user_counter_save ..
          have h := query_endpoint_rest_counter cfg _ e q ntid u a t1 t2 rr
            (by rw [hcs]; exact hcan)
          rw [hcs] at h
          exact h
        | some tid =>
          cases hf : find_thread tid (get_user_data cfg s e).1.threads with
          | none =>
            unfold query_endpoint
            rw [if_neg hq, if_neg hlen, can_user_send_message_eq, decide_eq_true hcan]
            rw [if_neg (by simp)]
            dsimp only
            rw [get_thread_eq]
            dsimp only
            rw [hf]
            exact ⟨fun r hr => Except.noConfusion hr, fun err herr => rfl⟩
          | some th =>
            rw [query_endpoint_some_spec cfg s e q tid ntid u a tn t1 t2 rr hq hlen hcan
              (by rw [hf]; rfl)]
            exact query_endpoint_rest_counter cfg s e q tid u a t1 t2 rr hcan
      · unfold query_endpoint
        rw [if_neg hq, if_neg hlen, can_user_send_message_eq, decide_eq_false hcan]
        rw [if_pos (by simp)]
        exact ⟨fun r hr => Except.noConfusion hr, fun err herr => rfl⟩

/-! ### Reads of the user record by store shape -/

theorem get_user_data_none (cfg : Config) (s : Store) (e : String)
    (h : s (user_key e) = none) :
    get_user_data cfg s e = (⟨[], cfg.maxMsgs⟩, s) := by
  unfold get_user_data
  rw [h]

theorem get_user_data_corrupt (cfg : Config) (s : Store) (e : String)
    (ttl : Nat) (h : s (user_key e) = some ⟨.corrupt, ttl⟩) :
    get_user_data cfg s e = (⟨[], cfg.maxMsgs⟩, s) := by
  unfold get_user_data
  rw [h]

theorem get_user_data_valid (cfg : Config) (s : Store) (e : String)
    (ths : List Thread) (ra : Option Int) (ttl : Nat)
    (h : s (user_key e) = some ⟨.valid ths ra, ttl⟩) :
    get_user_data cfg s e = (⟨ths, ra.getD cfg.maxMsgs⟩, s) := by
  unfold get_user_data
  rw [h]

/-! ### One successful query step and the quota induction -/

theorem query_step (cfg : Config) (s : Store) (e : String)
    (hcan : user_counter cfg s e > 0) :
    (query_endpoint cfg s e "hello" none "tid" "mu" "ma" 0 1 2 (.ok "ok")).1 =
      .ok ("ok", "tid") ∧
    user_counter cfg
        (query_endpoint cfg s e "hello" none "tid" "mu" "ma" 0 1 2 (.ok "ok")).2 e =
      user_counter cfg s e - 1 := by
  have hq : ¬ pyStrip "hello" = "" := by decide
  have hlen : ¬ (("hello" : String).length > 1000) := by decide
  rw [query_endpoint_none_spec cfg s e "hello" "tid" "mu" "ma" 0 1 2 (.ok "ok") hq hlen hcan]
  have hthreads : (get_user_data cfg
      (save_user_data cfg s e
        ⟨(get_user_data cfg s e).1.threads ++ [⟨"tid", title_of "hello", 0, 0, []⟩],
         (get_user_data cfg s e).1.requests_available⟩) e).1.threads =
      (get_user_data cfg s e).1.threads ++ [⟨"tid", title_of "hello", 0, 0, []⟩] := by
    rw [get_user_data_save]
  have hsome : (find_thread "tid" (get_user_data cfg
      (save_user_data cfg s e
        ⟨(get_user_data cfg s e).1.threads ++ [⟨"tid", title_of "hello", 0, 0, []⟩],
         (get_user_data cfg s e).1.requests_available⟩) e).1.threads).isSome = true := by
    rw [hthreads]
    exact find_thread_append_self "tid" _ _ rfl
  obtain ⟨th, hth⟩ := Option.isSome_iff_exists.mp hsome
  have hcs : user_counter cfg
      (save_user_data cfg s e
        ⟨(get_user_data cfg s e).1.threads ++ [⟨"tid", title_of "hello", 0, 0, []⟩],
         (get_user_data cfg s e).1.requests_available⟩) e =
      user_counter cfg s e := user_counter_save ..
  have hspec := query_endpoint_rest_spec cfg
    (save_user_data cfg s e
      ⟨(get_user_data cfg s e).1.threads ++ [⟨"tid", title_of "hello", 0, 0, []⟩],
       (get_user_data cfg s e).1.requests_available⟩)
    e "hello" "tid" "mu" "ma" 1 2 "ok" th hth
  refine ⟨?_, ?_⟩
  · rw [hspec.1, if_neg (by decide : ¬ (("ok" : String) = ""))]
  · rw [hspec.2.2, hcs, if_pos hcan]

theorem run_queries_counter (cfg : Config) (s : Store) (e : String) (N : Nat)
    (hmax : cfg.maxMsgs = (N : Int)) (h0 : s (user_key e) = none) :
    ∀ k, k ≤ N → user_counter cfg (run_queries cfg s e k) e = (N : Int) - k := by
  intro k
  induction k with
  | zero =>
    intro _
    show (get_user_data cfg s e).1.requests_available = (N : Int) - (0 : Nat)
    rw [get_user_data_none cfg s e h0]
    simp [hmax]
  | succ k ih =>
    intro hk
    have hk2 : k ≤ N := Nat.le_of_succ_le hk
    have hik := ih hk2
    have hpos : user_counter cfg (run_queries cfg s e k) e > 0 := by
      rw [hik]
      have : (k : Int) < (N : Int) := by exact_mod_cast Nat.lt_of_succ_le hk
      omega
    have hstep := query_step cfg (run_queries cfg s e k) e hpos
    show user_counter cfg
      (query_endpoint cfg (run_queries cfg s e k) e "hello" none "tid" "mu" "ma"
        0 1 2 (.ok "ok")).2 e = (N : Int) - ((k + 1 : Nat) : Int)
    rw [hstep.2, hik]
    push_cast
    ring

theorem get_user_threads_eq (cfg : Config) (s : Store) (e : String) :
    get_user_threads cfg s e = ((get_user_data cfg s e).1.threads, s) := by
  unfold get_user_threads
  conv_lhs => rw [get_user_data_eq]

/-! ### Concrete stores used by the witnesses -/

/-- Default configuration: MAX_MESSAGES_PER_USER = 30,
REDIS_CHAT_TTL = 2592000 seconds. -/
def demo_cfg : Config := ⟨30, 2592000⟩

/-- A store with no record at all. -/
def empty_store : Store := fun _ => none

/-- A store whose record for the demo user is unparseable. -/
def corrupt_store : Store :=
  fun k => if k = user_key "u@example.com" then some ⟨.corrupt, 5⟩ else none

/-- A store whose record for the demo user parses but lacks the
requests_available field (a legacy record). -/
def legacy_store : Store :=
  fun k => if k = user_key "u@example.com" then some ⟨.valid [] none, 5⟩ else none

/-- A store whose record for the demo user has an exhausted counter. -/
def zero_store : Store :=
  fun k => if k = user_key "u@example.com" then some ⟨.valid [] (some 0), 7⟩ else none

/-- A store holding one thread t1 for the demo user. -/
def demo_store : Store :=
  save_user_data demo_cfg empty_store "u@example.com" ⟨[⟨"t1", "hi", 0, 0, []⟩], 30⟩

/-! ### Claims -/

/-- C8: for every user identifier, reading the user chat state when the
stored record is absent or corrupt returns the default state (empty thread
list, requests_available equal to the configured maximum) rather than
raising, and a parseable legacy record lacking the requests_available
field is treated as having full quota. -/
theorem C8_read_default_state (cfg : Config) (s : Store) (e : String) :
    (s (user_key e) = none →
      get_user_data cfg s e = (⟨[], cfg.maxMsgs⟩, s)) ∧
    (∀ ttl, s (user_key e) = some ⟨.corrupt, ttl⟩ →
      get_user_data cfg s e = (⟨[], cfg.maxMsgs⟩, s)) ∧
    (∀ ths ttl, s (user_key e) = some ⟨.valid ths none, ttl⟩ →
      get_user_data cfg s e = (⟨ths, cfg.maxMsgs⟩, s)) :=
  ⟨fun h => get_user_data_none cfg s e h,
   fun ttl h => get_user_data_corrupt cfg s e ttl h,
   fun ths ttl h => by rw [get_user_data_valid cfg s e ths none ttl h]; rfl⟩

/-- Witness for C8 at the absent, corrupt and legacy demo stores. -/
theorem C8_read_default_state_witness :
    get_user_data demo_cfg empty_store "u@example.com" = (⟨[], 30⟩, empty_store) ∧
    get_user_data demo_cfg corrupt_store "u@example.com" = (⟨[], 30⟩, corrupt_store) ∧
    get_user_data demo_cfg legacy_store "u@example.com" = (⟨[], 30⟩, legacy_store) :=
  ⟨(C8_read_default_state demo_cfg empty_store "u@example.com").1 rfl,
   (C8_read_default_state demo_cfg corrupt_store "u@example.com").2.1 5 rfl,
   (C8_read_default_state demo_cfg legacy_store "u@example.com").2.2 [] 5 rfl⟩

/-- C9: when the current counter value is not positive,
decrement_user_requests performs no write at all: the store, entries and
time-to-live included, is left unchanged and the unchanged counter value
is returned. -/
theorem C9_decrement_no_write (cfg : Config) (s : Store) (e : String)
    (h : user_counter cfg s e ≤ 0) :
    decrement_user_requests cfg s e = (user_counter cfg s e, s) := by
  rw [decrement_eq, if_neg (by omega)]

/-- Witness for C9 at a store with an exhausted counter. -/
theorem C9_decrement_no_write_witness :
    user_counter demo_cfg zero_store "u@example.com" ≤ 0 ∧
    decrement_user_requests demo_cfg zero_store "u@example.com" =
      (user_counter demo_cfg zero_store "u@example.com", zero_store) :=
  ⟨by decide,
   C9_decrement_no_write demo_cfg zero_store "u@example.com" (by decide)⟩

/-- C10: every read-path operation (get_thread, get_user_threads,
get_user_requests_available, can_user_send_message and the two paginated
handlers) returns the store unchanged, so no write and no time-to-live
renewal happens on a read; the requests_available value lazily defaulted
for a legacy record is not persisted by the read, and the next mutating
operation (create_thread here) persists the full record with the
defaulted value. -/
theorem C10_read_frame (cfg : Config) (s : Store) (tid e : String)
    (page psize : Nat) (sb so : String) :
    (get_thread cfg s tid e).2 = s ∧
    (get_user_threads cfg s e).2 = s ∧
    (get_user_requests_available cfg s e).2 = s ∧
    (can_user_send_message cfg s e).2 = s ∧
    (get_user_threads_paginated cfg s e page psize sb so).2 = s ∧
    (get_thread_messages_paginated cfg s tid e page psize so).2 = s ∧
    (∀ ths ttl, s (user_key e) = some ⟨.valid ths none, ttl⟩ →
      (get_user_requests_available cfg s e).1 = cfg.maxMsgs ∧
      (create_thread cfg s e "t" "id" 0).2 (user_key e) =
        some ⟨.valid (ths ++ [⟨"id", "t", 0, 0, []⟩]) (some cfg.maxMsgs),
          cfg.chatTtl⟩) := by
  refine ⟨?_, ?_, ?_, ?_, ?_, ?_, ?_⟩
  · rw [get_thread_eq]
  · rw [get_user_threads_eq]
  · rw [get_user_requests_available_eq]
  · rw [can_user_send_message_eq]
  · unfold get_user_threads_paginated
    rw [get_user_threads_eq]
  · unfold get_thread_messages_paginated
    rw [get_thread_eq]
    dsimp only
    cases find_thread tid (get_user_data cfg s e).1.threads <;> rfl
  · intro ths ttl h
    constructor
    · rw [get_user_requests_available_eq]
      show (get_user_data cfg s e).1.requests_available = cfg.maxMsgs
      rw [get_user_data_valid cfg s e ths none ttl h]
      rfl
    · rw [create_thread_eq]
      show save_user_data cfg s e _ (user_key e) = _
      rw [get_user_data_valid cfg s e ths none ttl h]
      unfold save_user_data
      rw [if_pos rfl]
      rfl

/-- Witness for C10 at the legacy demo store. -/
theorem C10_read_frame_witness :
    (get_user_requests_available demo_cfg legacy_store "u@example.com").1 = 30 ∧
    (create_thread demo_cfg legacy_store "u@example.com" "t" "id" 0).2
        (user_key "u@example.com") =
      some ⟨.valid [⟨"id", "t", 0, 0, []⟩] (some 30), 2592000⟩ := by
  have h := (C10_read_frame demo_cfg legacy_store "u@example.com"
    "u@example.com" 1 10 "updated_at" "desc").2.2.2.2.2.2 [] 5 rfl
  exact ⟨h.1, h.2⟩

/-- C2 (code bug): DELETE /threads delegates to chat_handler.delete_thread,
an attribute ChatHandler never defines, so the endpoint reports a 500
server error on every input - deleting an existing owned thread included -
instead of succeeding or reporting not-found; the unreachable
ChatService.delete_thread itself does implement the claimed semantics:
at the demo store the first delete of the owned thread t1 returns success
and the second returns the not-found signal. -/
theorem C2_delete_endpoint_unreachable :
    (∀ (s : Store) (tid e : String),
      delete_thread_endpoint s tid e = (.error .server_error, s)) ∧
    (delete_thread demo_cfg demo_store "t1" "u@example.com").1 = true ∧
    (delete_thread demo_cfg
        (delete_thread demo_cfg demo_store "t1" "u@example.com").2
        "t1" "u@example.com").1 = false := by
  refine ⟨fun s tid e => rfl, ?_, ?_⟩ <;> rfl

/-- C6: the pagination helper shared by the two list operations returns
the slice [(page-1)*page_size, page*page_size) of the sorted collection,
total_count = n, total_pages = the rounding-up division (n + s - 1) / s,
which is the ceiling of n / s (characterized by the two multiple bounds),
has_next = (page < total_pages), has_previous = (page > 1), and a page
beyond total_pages yields an empty slice, not an error. -/
theorem C6_paginate_spec (α : Type) (l : List α) (page psize : Nat)
    (hp : 1 ≤ page) (hs : 1 ≤ psize) :
    (paginate l page psize).items = (l.drop ((page - 1) * psize)).take psize ∧
    (paginate l page psize).total_count = l.length ∧
    (paginate l page psize).total_pages = (l.length + psize - 1) / psize ∧
    (l.length ≤ (paginate l page psize).total_pages * psize ∧
      (paginate l page psize).total_pages * psize < l.length + psize) ∧
    ((paginate l page psize).has_next = true ↔
      page < (paginate l page psize).total_pages) ∧
    ((paginate l page psize).has_previous = true ↔ 1 < page) ∧
    ((paginate l page psize).total_pages < page →
      (paginate l page psize).items = []) := by
  refine ⟨rfl, rfl, rfl, ?_, by simp [paginate], by simp [paginate], ?_⟩
  · have h5 : (paginate l page psize).total_pages =
        (l.length + psize - 1) / psize := rfl
    rw [h5]
    have h2 := Nat.div_add_mod (l.length + psize - 1) psize
    have h3 := Nat.mod_lt (l.length + psize - 1) (show 0 < psize by omega)
    have h4 : psize * ((l.length + psize - 1) / psize) =
        ((l.length + psize - 1) / psize) * psize := Nat.mul_comm _ _
    omega
  · intro hlt
    have htp : (l.length + psize - 1) / psize ≤ page - 1 := by
      have : (l.length + psize - 1) / psize < page := hlt
      omega
    have hn : l.length ≤ (page - 1) * psize := by
      have h2 := Nat.div_add_mod (l.length + psize - 1) psize
      have h3 := Nat.mod_lt (l.length + psize - 1) (show 0 < psize by omega)
      have h5 : ((l.length + psize - 1) / psize) * psize ≤ (page - 1) * psize :=
        Nat.mul_le_mul_right psize htp
      have h4 : psize * ((l.length + psize - 1) / psize) =
          ((l.length + psize - 1) / psize) * psize := Nat.mul_comm _ _
      omega
    show (l.drop ((page - 1) * psize)).take psize = []
    rw [List.drop_eq_nil_of_le hn]
    simp

/-- Witness for C6: 25 items, page size 10: page 3 holds the last 5 items,
there are 3 pages, page 3 has no next page, and page 4 is empty. -/
theorem C6_paginate_spec_witness :
    (paginate (List.range 25) 3 10).items = ((List.range 25).drop 20).take 10 ∧
    (paginate (List.range 25) 3 10).total_pages = 3 ∧
    ((paginate (List.range 25) 3 10).has_next = true ↔
      3 < (paginate (List.range 25) 3 10).total_pages) ∧
    (paginate (List.range 25) 4 10).items = [] := by
  have h3 := C6_paginate_spec Nat (List.range 25) 3 10 (by decide) (by decide)
  have h4 := C6_paginate_spec Nat (List.range 25) 4 10 (by decide) (by decide)
  exact ⟨h3.1, (h3.2.2.1).trans (by decide), h3.2.2.2.2.1,
    h4.2.2.2.2.2.2 (by decide)⟩

theorem pyStrip_apology : pyStrip apology_msg = apology_msg := by decide

/-- C3: the confidence query_ragbot uses equals the arithmetic mean of the
scores of exactly those returned passages that carry one (passages without
a score are excluded); when no returned passage carries a score - in
particular when no passages are returned - the confidence is 0, which for
a positive threshold (the default is 0.3) forces the generative-provider
fallback. -/
theorem C3_confidence_mean (threshold : ℚ) (rag : RagResponse)
    (llm : Option String) (q : String) (hq : pyStrip q ≠ "") :
    ((rag.source_nodes.filterMap (fun n => n.score)) ≠ [] →
      (query_ragbot threshold rag llm q).confidence =
        (rag.source_nodes.filterMap (fun n => n.score)).sum /
          ((rag.source_nodes.filterMap (fun n => n.score)).length : ℚ)) ∧
    ((rag.source_nodes.filterMap (fun n => n.score)) = [] →
      (query_ragbot threshold rag llm q).confidence = 0 ∧
      (0 < threshold → (query_ragbot threshold rag llm q).llm_called = true)) := by
  have hcc : compute_confidence rag.source_nodes =
      (if (rag.source_nodes.filterMap (fun n => n.score)).isEmpty then 0
       else (rag.source_nodes.filterMap (fun n => n.score)).sum /
         ((rag.source_nodes.filterMap (fun n => n.score)).length : ℚ)) := rfl
  have hconf : (query_ragbot threshold rag llm q).confidence =
      compute_confidence rag.source_nodes := by
    unfold query_ragbot
    rw [if_neg hq]
    by_cases hb : (decide (compute_confidence rag.source_nodes ≥ threshold) &&
        synth_ok rag.response) = true
    · rw [if_pos hb]
    · rw [if_neg hb]
  constructor
  · intro hne
    rw [hconf, hcc, if_neg]
    simpa [List.isEmpty_iff] using hne
  · intro hemp
    have h0 : compute_confidence rag.source_nodes = 0 := by
      rw [hcc, if_pos]
      simpa [List.isEmpty_iff] using hemp
    refine ⟨by rw [hconf, h0], fun hth => ?_⟩
    have hd : decide (compute_confidence rag.source_nodes ≥ threshold) = false := by
      rw [h0]
      exact decide_eq_false (not_le.mpr hth)
    unfold query_ragbot
    rw [if_neg hq, if_neg (by rw [hd, Bool.false_and]; simp)]

/-- Witness for C3: two of three passages carry scores 1/2 and 1/4, the
mean is 3/8; with no scored passage and the default threshold 0.3 the
confidence is 0 and the fallback is taken. -/
theorem C3_confidence_mean_witness :
    (query_ragbot (3/10) ⟨some "a", [⟨some (1/2)⟩, ⟨none⟩, ⟨some (1/4)⟩]⟩
      (some "b") "hi").confidence = (3/8 : ℚ) ∧
    (query_ragbot (3/10) ⟨some "a", [⟨none⟩]⟩ (some "b") "hi").confidence = 0 ∧
    (query_ragbot (3/10) ⟨some "a", [⟨none⟩]⟩ (some "b") "hi").llm_called = true := by
  have h1 := (C3_confidence_mean (3/10) ⟨some "a", [⟨some (1/2)⟩, ⟨none⟩, ⟨some (1/4)⟩]⟩
    (some "b") "hi" (by decide)).1 (by decide)
  have h2 := (C3_confidence_mean (3/10) ⟨some "a", [⟨none⟩]⟩
    (some "b") "hi" (by decide)).2 rfl
  exact ⟨h1.trans (by norm_num [List.filterMap_cons, List.sum_cons, List.sum_nil]),
    h2.1, h2.2 (by norm_num)⟩

/-- C1 counterexample: with no retrieved passages (confidence 0, below the
default threshold 0.3) and a generative provider returning the empty
string, the claim as stated predicts that query_ragbot returns the
provider response trimmed, i.e. the empty string; the code instead
substitutes the fixed apology, so the returned answer differs from the
trimmed provider text. -/
theorem C1_routing_counterexample :
    ¬ ((query_ragbot (3/10) ⟨none, []⟩ (some "") "hi").answer = pyStrip "") := by
  have ha : (query_ragbot (3/10) ⟨none, []⟩ (some "") "hi").answer = apology_msg := by
    unfold query_ragbot
    rw [if_neg (by decide), if_neg (by simp [synth_ok])]
    show pyStrip (if ("" : String) = "" ∨ pyStrip "" = "" then apology_msg else "") =
      apology_msg
    rw [if_pos (Or.inl rfl), pyStrip_apology]
  rw [ha]
  decide

/-- C1 (amended): for a non-blank question, if the confidence is at least
the threshold and the synthesized answer passes the non-empty/sentinel
check, query_ragbot returns that synthesized answer trimmed without
calling the generative provider; otherwise it sends the raw question as a
single user-role message to the generative provider and returns that
response trimmed - unless the response is empty or blank, in which case
the fixed apologetic message is returned instead. -/
theorem C1_routing_amended (threshold : ℚ) (rag : RagResponse)
    (llm : Option String) (q : String) (hq : pyStrip q ≠ "") :
    ((compute_confidence rag.source_nodes ≥ threshold ∧
        synth_ok rag.response = true) →
      (query_ragbot threshold rag llm q).answer = pyStrip (rag.response.getD "") ∧
      (query_ragbot threshold rag llm q).llm_called = false) ∧
    (¬ (compute_confidence rag.source_nodes ≥ threshold ∧
        synth_ok rag.response = true) →
      (query_ragbot threshold rag llm q).llm_called = true ∧
      (query_ragbot threshold rag llm q).llm_messages = [⟨"user", q⟩] ∧
      (query_ragbot threshold rag llm q).answer =
        (if llm.getD "" = "" ∨ pyStrip (llm.getD "") = "" then apology_msg
         else pyStrip (llm.getD ""))) := by
  constructor
  · rintro ⟨h1, h2⟩
    have hb : (decide (compute_confidence rag.source_nodes ≥ threshold) &&
        synth_ok rag.response) = true := by
      rw [decide_eq_true h1, h2]
      rfl
    unfold query_ragbot
    rw [if_neg hq, if_pos hb]
    exact ⟨rfl, rfl⟩
  · intro hn
    have hb : (decide (compute_confidence rag.source_nodes ≥ threshold) &&
        synth_ok rag.response) = false := by
      cases hsy : synth_ok rag.response
      · rw [Bool.and_false]
      · have h1 : ¬ (compute_confidence rag.source_nodes ≥ threshold) :=
          fun hc => hn ⟨hc, hsy⟩
        rw [decide_eq_false h1, Bool.false_and]
    unfold query_ragbot
    rw [if_neg hq, if_neg (by rw [hb]; simp)]
    refine ⟨rfl, rfl, ?_⟩
    by_cases h2 : (llm.getD "" = "" ∨ pyStrip (llm.getD "") = "")
    · rw [if_pos h2]
      show pyStrip (if llm.getD "" = "" ∨ pyStrip (llm.getD "") = ""
        then apology_msg else llm.getD "") = apology_msg
      rw [if_pos h2, pyStrip_apology]
    · rw [if_neg h2]
      show pyStrip (if llm.getD "" = "" ∨ pyStrip (llm.getD "") = ""
        then apology_msg else llm.getD "") = pyStrip (llm.getD "")
      rw [if_neg h2]

/-- Witness for C1: at average score 1/2 and threshold 3/10 the
synthesized answer is returned trimmed; at confidence 0 the fallback is
taken and the provider response is returned trimmed. -/
theorem C1_routing_amended_witness :
    (query_ragbot (3/10) ⟨some " ans ", [⟨some (1/2)⟩]⟩ (some "b") "hi").answer =
      pyStrip " ans " ∧
    (query_ragbot (3/10) ⟨some " ans ", [⟨some (1/2)⟩]⟩ (some "b") "hi").llm_called =
      false ∧
    (query_ragbot (3/10) ⟨none, []⟩ (some " fb ") "hi").answer = pyStrip " fb " ∧
    (query_ragbot (3/10) ⟨none, []⟩ (some " fb ") "hi").llm_messages =
      [⟨"user", "hi"⟩] := by
  have h1 := (C1_routing_amended (3/10) ⟨some " ans ", [⟨some (1/2)⟩]⟩
    (some "b") "hi" (by decide)).1
    ⟨by norm_num [compute_confidence, List.filterMap_cons, List.sum_cons, List.sum_nil],
     by decide⟩
  have h2 := (C1_routing_amended (3/10) ⟨none, []⟩ (some " fb ") "hi"
    (by decide)).2
    (fun hc => absurd hc.1 (by norm_num [compute_confidence, List.filterMap_nil]))
  refine ⟨h1.1, h1.2, ?_, h2.2.1⟩
  rw [h2.2.2, if_neg (by decide)]
  rfl

/-- C7: query_ragbot never returns an empty or whitespace-only string:
whenever the generative-provider fallback returns empty or blank text the
fixed apologetic message is returned instead, and every branch (the
empty-question rejection, the high-confidence synthesized answer, and the
fallback) produces text that is non-empty after trimming. -/
theorem C7_nonblank_answer (threshold : ℚ) (rag : RagResponse)
    (llm : Option String) (q : String) :
    pyStrip (query_ragbot threshold rag llm q).answer ≠ "" ∧
    ((query_ragbot threshold rag llm q).llm_called = true →
      pyStrip (llm.getD "") = "" →
      (query_ragbot threshold rag llm q).answer = apology_msg) := by
  unfold query_ragbot
  by_cases hq : pyStrip q = ""
  · rw [if_pos hq]
    exact ⟨by decide, fun h1 _ => by cases h1⟩
  · rw [if_neg hq]
    by_cases hb : (decide (compute_confidence rag.source_nodes ≥ threshold) &&
        synth_ok rag.response) = true
    · rw [if_pos hb]
      have hsy : synth_ok rag.response = true := (Bool.and_eq_true _ _ |>.mp hb).2
      obtain ⟨t, ht⟩ : ∃ t, rag.response = some t := by
        cases hr : rag.response with
        | none => rw [hr] at hsy; cases hsy
        | some t => exact ⟨t, rfl⟩
      have hts : pyStrip t ≠ "" := by
        rw [ht] at hsy
        unfold synth_ok at hsy
        simp only [Bool.and_eq_true, decide_eq_true_eq] at hsy
        exact hsy.1.2
      refine ⟨?_, fun h1 _ => by cases h1⟩
      show pyStrip (pyStrip (rag.response.getD "")) ≠ ""
      rw [ht]
      show pyStrip (pyStrip t) ≠ ""
      rw [pyStrip_idem]
      exact hts
    · rw [if_neg hb]
      by_cases h2 : (llm.getD "" = "" ∨ pyStrip (llm.getD "") = "")
      · constructor
        · show pyStrip (pyStrip (if llm.getD "" = "" ∨ pyStrip (llm.getD "") = ""
            then apology_msg else llm.getD "")) ≠ ""
          rw [if_pos h2, pyStrip_apology, pyStrip_apology]
          decide
        · intro _ _
          show pyStrip (if llm.getD "" = "" ∨ pyStrip (llm.getD "") = ""
            then apology_msg else llm.getD "") = apology_msg
          rw [if_pos h2, pyStrip_apology]
      · constructor
        · show pyStrip (pyStrip (if llm.getD "" = "" ∨ pyStrip (llm.getD "") = ""
            then apology_msg else llm.getD "")) ≠ ""
          rw [if_neg h2, pyStrip_idem]
          exact fun hc => h2 (Or.inr hc)
        · intro _ hblank
          exact absurd hblank (fun hc => h2 (Or.inr hc))

/-- Witness for C7: with a blank provider response on the fallback path
the apology is returned, and it is non-blank. -/
theorem C7_nonblank_answer_witness :
    (query_ragbot (3/10) ⟨none, []⟩ (some " ") "hi").answer = apology_msg ∧
    pyStrip (query_ragbot (3/10) ⟨none, []⟩ (some " ") "hi").answer ≠ "" := by
  have h := C7_nonblank_answer (3/10) ⟨none, []⟩ (some " ") "hi"
  have hl : (query_ragbot (3/10) ⟨none, []⟩ (some " ") "hi").llm_called = true := by
    unfold query_ragbot
    rw [if_neg (by decide), if_neg (by simp [synth_ok])]
  exact ⟨h.2 hl (by decide), h.1⟩

/-- C4: a successfully answered query decrements requests_available by
exactly one and a failed query decrements nothing; starting from a fresh
record with configured maximum N, after k ≤ N successful queries the
counter reads N - k, and the query after the Nth fails with the rate-limit
condition while requests_available reports 0; decrement_user_requests
never takes a non-negative counter below 0 and returns the post-decrement
value. -/
theorem C4_quota (cfg : Config) (e : String) :
    (∀ (s : Store) (q : String) (tidopt : Option String) (ntid u a : String)
      (tn t1 t2 : Nat) (rr : Except Unit String) (r : String × String),
      (query_endpoint cfg s e q tidopt ntid u a tn t1 t2 rr).1 = .ok r →
      user_counter cfg (query_endpoint cfg s e q tidopt ntid u a tn t1 t2 rr).2 e =
        user_counter cfg s e - 1) ∧
    (∀ (s : Store) (q : String) (tidopt : Option String) (ntid u a : String)
      (tn t1 t2 : Nat) (rr : Except Unit String) (err : ApiError),
      (query_endpoint cfg s e q tidopt ntid u a tn t1 t2 rr).1 = .error err →
      user_counter cfg (query_endpoint cfg s e q tidopt ntid u a tn t1 t2 rr).2 e =
        user_counter cfg s e) ∧
    (∀ (N : Nat) (s : Store), cfg.maxMsgs = (N : Int) → s (user_key e) = none →
      (∀ k, k ≤ N →
        user_counter cfg (run_queries cfg s e k) e = (N : Int) - k) ∧
      (query_endpoint cfg (run_queries cfg s e N) e "hello" none "tid" "mu" "ma"
          0 1 2 (.ok "ok")).1 = .error .rate_limit ∧
      (get_user_requests_available cfg (run_queries cfg s e N) e).1 = 0) ∧
    (∀ (s : Store), 0 ≤ user_counter cfg s e →
      0 ≤ (decrement_user_requests cfg s e).1 ∧
      (decrement_user_requests cfg s e).1 =
        user_counter cfg (decrement_user_requests cfg s e).2 e) := by
  refine ⟨?_, ?_, ?_, ?_⟩
  · intro s q tidopt ntid u a tn t1 t2 rr r hok
    exact (query_endpoint_counter cfg s e q tidopt ntid u a tn t1 t2 rr).1 r hok
  · intro s q tidopt ntid u a tn t1 t2 rr err herr
    exact (query_endpoint_counter cfg s e q tidopt ntid u a tn t1 t2 rr).2 err herr
  · intro N s hmax h0
    have hrun := run_queries_counter cfg s e N hmax h0
    have hc0 : user_counter cfg (run_queries cfg s e N) e = 0 := by
      rw [hrun N le_rfl]
      ring
    refine ⟨hrun, ?_, ?_⟩
    · unfold query_endpoint
      rw [if_neg (by decide), if_neg (by decide), can_user_send_message_eq, hc0]
      rw [show decide ((0 : Int) > 0) = false from rfl]
      rw [if_pos (by simp)]
    · rw [get_user_requests_available_eq]
      exact hc0
  · intro s hnn
    rw [decrement_eq]
    by_cases hpos : user_counter cfg s e > 0
    · rw [if_pos hpos]
      refine ⟨by omega, ?_⟩
      rw [user_counter_save]
    · rw [if_neg hpos]
      exact ⟨hnn, rfl⟩

/-- Configuration with maximum 2 requests, for the quota witness. -/
def demo_cfg2 : Config := ⟨2, 100⟩

/-- Witness for C4: with maximum 2, after 2 successful queries the counter
reads 0 and the 3rd query is rate-limited while reporting 0. -/
theorem C4_quota_witness :
    user_counter demo_cfg2 (run_queries demo_cfg2 empty_store "w@example.com" 2)
      "w@example.com" = 0 ∧
    (query_endpoint demo_cfg2 (run_queries demo_cfg2 empty_store "w@example.com" 2)
      "w@example.com" "hello" none "tid" "mu" "ma" 0 1 2 (.ok "ok")).1 =
      .error .rate_limit ∧
    (get_user_requests_available demo_cfg2
      (run_queries demo_cfg2 empty_store "w@example.com" 2) "w@example.com").1 = 0 := by
  have h := (C4_quota demo_cfg2 "w@example.com").2.2.1 2 empty_store rfl rfl
  exact ⟨(h.1 2 le_rfl).trans (by norm_num), h.2.1, h.2.2⟩

/-- C5: a valid non-empty question against an existing owned thread, with
quota available and monotone clock readings, makes the endpoint succeed
and leaves the thread with exactly two more messages, the user message
followed by the assistant message, their timestamps in non-decreasing
order, and the thread updated_at equal to the assistant timestamp. -/
theorem C5_two_messages (cfg : Config) (s : Store) (e q tid ntid u a : String)
    (tn t1 t2 : Nat) (ans : String) (th : Thread)
    (hq : pyStrip q ≠ "") (hlen : ¬ q.length > 1000)
    (hcan : user_counter cfg s e > 0)
    (hth : (get_thread cfg s tid e).1 = some th)
    (ht : t1 ≤ t2) :
    ∃ answer th2,
      (query_endpoint cfg s e q (some tid) ntid u a tn t1 t2 (.ok ans)).1 =
        .ok (answer, tid) ∧
      (get_thread cfg
        (query_endpoint cfg s e q (some tid) ntid u a tn t1 t2 (.ok ans)).2
        tid e).1 = some th2 ∧
      th2.messages = th.messages ++
        [⟨u, "user", q, t1⟩, ⟨a, "assistant", answer, t2⟩] ∧
      (⟨u, "user", q, t1⟩ : Message).role = "user" ∧
      (⟨a, "assistant", answer, t2⟩ : Message).role = "assistant" ∧
      t1 ≤ t2 ∧
      th2.updated_at = t2 := by
  have hth2 : find_thread tid (get_user_data cfg s e).1.threads = some th := by
    rw [get_thread_eq] at hth
    exact hth
  rw [query_endpoint_some_spec cfg s e q tid ntid u a tn t1 t2 (.ok ans) hq hlen hcan
    (by rw [hth2]; rfl)]
  have hspec := query_endpoint_rest_spec cfg s e q tid u a t1 t2 ans th hth2
  refine ⟨(if ans = "" then endpoint_apology else ans),
    ⟨th.id, th.title, th.created_at, t2,
      th.messages ++ [⟨u, "user", q, t1⟩,
        ⟨a, "assistant", (if ans = "" then endpoint_apology else ans), t2⟩]⟩,
    hspec.1, ?_, rfl, rfl, rfl, ht, rfl⟩
  rw [get_thread_eq]
  exact hspec.2.1

/-- Witness for C5 on the demo store holding thread t1. -/
theorem C5_two_messages_witness :
    ∃ answer th2,
      (query_endpoint demo_cfg demo_store "u@example.com" "hi there" (some "t1")
        "n" "mu" "ma" 0 1 2 (.ok "ok")).1 = .ok (answer, "t1") ∧
      (get_thread demo_cfg
        (query_endpoint demo_cfg demo_store "u@example.com" "hi there" (some "t1")
          "n" "mu" "ma" 0 1 2 (.ok "ok")).2
        "t1" "u@example.com").1 = some th2 ∧
      th2.messages = (⟨"t1", "hi", 0, 0, []⟩ : Thread).messages ++
        [⟨"mu", "user", "hi there", 1⟩, ⟨"ma", "assistant", answer, 2⟩] ∧
      (⟨"mu", "user", "hi there", 1⟩ : Message).role = "user" ∧
      (⟨"ma", "assistant", answer, 2⟩ : Message).role = "assistant" ∧
      1 ≤ 2 ∧
      th2.updated_at = 2 :=
  C5_two_messages demo_cfg demo_store "u@example.com" "hi there" "t1" "n" "mu" "ma"
    0 1 2 "ok" ⟨"t1", "hi", 0, 0, []⟩ (by decide) (by decide) (by decide) rfl
    (by decide)

end RagBot
